import Mathlib

/-!
Shallow embedding of `course/module-3/finetuning/generate_data.py`
(the dataset-generation core: `DataFormatter`, `DatasetGenerator`).

Conventions of the embedding:
* Python exceptions are modelled by `Except PyError`; out-of-range list
  subscripts become `.indexError`, a missing dict key becomes `.keyError`,
  an undefined module-level name becomes `.nameError`, and `range` with a
  zero step becomes `.valueError`.
* The Qdrant `ContentStore` is a function from a collection name to the full
  stored record sequence; `client.scroll(collection_name, limit=10000)`
  returns the first 10000 records of that sequence.
* `GptCommunicator.send_prompt` is an oracle indexed by the number of the
  call (the fixed sequence of CompletionClient responses); each response is
  either a parsed list of `{instruction, content}` objects or a raised error.
* Comet / file-system side effects of `push_to_comet` are recorded as a list
  of `CometStep` events; the `CometEnv` flags say which of the fallible steps
  of the `try:` block would raise.
* Python `for` loops over `range` are embedded with an explicit fuel
  argument that strictly exceeds the number of iterations actually needed
  (`generate_training_data` rejects `batch_size = 0` first, exactly as
  `range(0, n, 0)` raises `ValueError`).
-/

/-- Kinds of Python exceptions the embedded code can raise. -/
inductive PyError where
  | keyError
  | indexError
  | nameError
  | valueError
  | completionError
  deriving DecidableEq, Repr

/-- A Qdrant point; `payload` is the `cleaned_content` entry of its payload
dict: `none` means the key is absent (subscripting raises `KeyError`), and a
falsy value (Python `None` or `""`) is modelled as `""`. -/
structure Point where
  payload : Option String
  deriving DecidableEq, Repr

/-- One parsed `{instruction, content}` object from the completion API. -/
structure GenObj where
  instruction : String
  content : String
  deriving DecidableEq, Repr

/-- Module-level `data_type = "posts"` of `generate_data.py`. -/
def data_type : String := "posts"

/-- Module-level `USER_PROMPT` of `generate_data.py` (the four adjacent
f-strings concatenated, with `{data_type}` spliced in). -/
def USER_PROMPT : String :=
  ("I will give you batches of contents of " ++ (data_type
    ++ ". Please generate me exactly 1 instruction for each of them. The "))
  ++ ((data_type ++ " text ")
  ++ ("for which you have to generate the instructions is under Content number x lines. Please structure the answer in json format,"
  ++ ("ready to be loaded by json.loads(), a list of objects only with fields called instruction and content. For the content field, copy the number of the content only!."
  ++ "Please do not add any extra characters and make sure it is a list with objects in valid json format!\n")))

namespace DataFormatter

/-- Body of the `for index, data_point in enumerate(data_points)` loop of
`DataFormatter.format_data`, with `text` the accumulated string. -/
def format_data_go ( is_example : Bool) (start_index : Nat) :
    List String → Nat → String → String
  | [], _, text => text
  | data_point :: rest, index, text =>
    format_data_go is_example start_index rest (index + 1)
      ((if ! is_example then
          text ++ ("Content number " ++ (toString (start_index + index) ++ "\n"))
        else text)
        ++ (data_point ++ "\n"))

/-- Embeds `DataFormatter.format_data` (lines 27-33). -/
def format_data (data_points : List String) ( is_example : Bool)
    (start_index : Nat) : String :=
  format_data_go is_example start_index data_points 0 ""

/-- Embeds `DataFormatter.format_batch` (lines 36-39). -/
def format_batch (context_msg : String) (data_points : List String)
    (start_index : Nat) : String :=
  context_msg ++ format_data data_points false start_index

/-- Embeds `DataFormatter.format_prompt` (lines 42-48). -/
def format_prompt (inference_posts : List String) (start_index : Nat) : String :=
  (USER_PROMPT
    ++ ("You must generate exactly a list of "
      ++ (toString inference_posts.length
        ++ " json objects, using the contents provided under CONTENTS FOR GENERATION\n")))
  ++ format_batch ("\nCONTENTS FOR GENERATION: \n") inference_posts start_index

end DataFormatter

/-- The block of numbered contents the prompt carries: one
`Content number k` marker per item, the numbers increasing by one, each
marker followed by that item's literal text. (Specification-side shape used
to state what `format_data` emits.) -/
def markerBlock : List String → Nat → String
  | [], _ => ""
  | post :: rest, k =>
    ("Content number " ++ (toString k ++ "\n"))
      ++ ((post ++ "\n") ++ markerBlock rest (k + 1))

/-- A `DataFormatter` instance. The Python class has no instance state (both
methods are classmethods); the `token` field only serves to distinguish
instances, so that "the constructor-supplied formatter is never consulted"
is a contentful statement. -/
structure DataFormatterObj where
  token : Nat
  deriving DecidableEq, Repr

/-- The `DatasetGenerator` instance built by `__init__` (lines 52-60):
`file_handler` is unused by the embedded methods, `api_communicator` is the
CompletionClient response oracle, `data_formatter` the constructor-supplied
formatter instance. -/
structure DatasetGenerator where
  file_handler : Unit
  api_communicator : Nat → Except PyError (List GenObj)
  data_formatter : DataFormatterObj

/-- Which fallible steps of `push_to_comet`'s `try:` block succeed:
`Experiment(...)` construction, the local `json.dump` file write, the
`Artifact`/`artifact.add` step, and the remote `experiment.log_artifact`
upload. -/
structure CometEnv where
  experimentOk : Bool
  writeOk : Bool
  artifactOk : Bool
  logOk : Bool
  deriving DecidableEq, Repr

/-- Observable events of `push_to_comet`. -/
inductive CometStep where
  | experimentCreated
  | fileWritten (file_name : String) (bytes : String)
  | artifactAdded
  | artifactLogged
  | experimentEnded
  | errorLogged
  deriving DecidableEq, Repr

/-- JSON escaping of one character, as `json.dump` performs it for the
two-character escapes (the `\uXXXX` escaping of other control and non-ASCII
characters is outside the data exercised here). -/
def escapeJsonChar (c : Char) : String :=
  if c = '"' then "\\\""
  else if c = '\\' then "\\\\"
  else if c = '\n' then "\\n"
  else if c = '\t' then "\\t"
  else if c = '\r' then "\\r"
  else String.singleton c

/-- JSON escaping of a string. -/
def escapeJson (s : String) : String :=
  String.join (s.data.map escapeJsonChar)

/-- Serialization of one `{instruction, content}` object, as `json.dump`
writes it with default separators and insertion-ordered keys. -/
def serializeObj (o : GenObj) : String :=
  ("\x7b\"instruction\": \"" ++ (escapeJson o.instruction
    ++ ("\", \"content\": \"" ++ (escapeJson o.content ++ "\"\x7d"))))

/-- Serialization of the whole dataset: `json.dump(data, f)` of the list. -/
def serialize (data : List GenObj) : String :=
  "[" ++ (String.intercalate (", ") (data.map serializeObj) ++ "]")

namespace DatasetGenerator

/-- The `for point in points` loop of `fetch_all_cleaned_content`
(lines 110-113): subscripting the payload raises `KeyError` when the
`cleaned_content` key is absent; truthy values are appended in order. -/
def fetchLoop : List Point → List String → Except PyError (List String)
  | [], all_cleaned_contents => .ok all_cleaned_contents
  | point :: rest, all_cleaned_contents =>
    match point.payload with
    | none => .error .keyError
    | some cleaned_content =>
      fetchLoop rest
        (if cleaned_content ≠ "" then all_cleaned_contents ++ [cleaned_content]
         else all_cleaned_contents)

/-- Embeds `DatasetGenerator.fetch_all_cleaned_content` (lines 104-115): a single
`client.scroll(collection_name, limit=10000)` call, consuming only the
returned first page. -/
def fetch_all_cleaned_content (store : String → List Point)
    (collection_name : String) : Except PyError (List String) :=
  fetchLoop ((store collection_name).take 10000) []

/-- Embeds `DatasetGenerator.push_to_comet` (lines 74-102). The `try:` block runs
Experiment construction, the local file write, artifact creation/add, the
remote `log_artifact` upload and `experiment.end()` in that order, stopping
at the first step that raises; `except Exception` then logs the error.  The
function returns the list of performed side effects and, modelling the
broad catch, never raises. -/
def push_to_comet (env : CometEnv) (data : List GenObj)
    (collection_name : String) : List CometStep :=
  if !env.experimentOk then [.errorLogged]
  else if !env.writeOk then [.experimentCreated, .errorLogged]
  else
    let written := CometStep.fileWritten (collection_name ++ ".json") (serialize data)
    if !env.artifactOk then [.experimentCreated, written, .errorLogged]
    else if !env.logOk then [.experimentCreated, written, .artifactAdded, .errorLogged]
    else [.experimentCreated, written, .artifactAdded, .artifactLogged, .experimentEnded]

/-- The `for j in range(i, i + batch_size)` overwrite loop (lines 69-70):
`response[j]["content"] = all_contents[j]`, evaluating `all_contents[j]`
first, then subscripting `response`, raising `IndexError` at the first `j`
out of range of either list.  The second argument counts the remaining
iterations. -/
def overwriteLoop (all_contents : List String) :
    List GenObj → Nat → Nat → Except PyError (List GenObj)
  | response, _, 0 => .ok response
  | response, j, k + 1 =>
    if hc : j < all_contents.length then
      if hr : j < response.length then
        overwriteLoop all_contents
          (response.set j { response.get ⟨j, hr⟩ with content := all_contents.get ⟨j, hc⟩ })
          (j + 1) k
      else .error .indexError
    else .error .indexError

/-- The `for i in range(0, len(all_contents), batch_size)` loop of
`generate_training_data` (lines 65-70).  Per iteration: slice the batch,
resolve the module-level name `data_formatter` (a `NameError` when the
module was imported rather than run as a script, since the global is only
bound under `__main__`), build the prompt, call the API (`calls` records
the prompts sent, and the oracle is indexed by the number of prior calls),
extend `response`, then run the overwrite loop.  The first argument is
fuel; callers supply more fuel than the loop can consume. -/
def genLoop (all_contents : List String) (batch_size : Nat)
    (global_formatter_defined : Bool) (api : Nat → Except PyError (List GenObj)) :
    Nat → Nat → List GenObj → List String →
      Except PyError (List GenObj) × List String
  | 0, _, response, calls => (.ok response, calls)
  | fuel + 1, i, response, calls =>
    if i < all_contents.length then
      if global_formatter_defined then
        let batch := (all_contents.drop i).take batch_size
        let initial_prompt := DataFormatter.format_prompt batch i
        match api calls.length with
        | .error e => (.error e, calls ++ [initial_prompt])
        | .ok objs =>
          match overwriteLoop all_contents (response ++ objs) i batch_size with
          | .error e => (.error e, calls ++ [initial_prompt])
          | .ok response2 =>
            genLoop all_contents batch_size global_formatter_defined api
              fuel (i + batch_size) response2 (calls ++ [initial_prompt])
      else (.error .nameError, calls)
    else (.ok response, calls)

end DatasetGenerator

deriving instance DecidableEq for Except

/-- Everything observable about one `generate_training_data` run: the raised
error or the accumulated dataset, the prompts sent to the CompletionClient
in order, and the side effects of the artifact push. -/
structure RunResult where
  result : Except PyError (List GenObj)
  calls : List String
  steps : List CometStep
  deriving DecidableEq, Repr

namespace DatasetGenerator

/-- Embeds `DatasetGenerator.generate_training_data` (lines 62-72): fetch the
cleaned contents, run the batching loop, and hand the accumulated response
to `push_to_comet`.  `global_formatter_defined` says whether the
module-level name `data_formatter` is bound (it is exactly when the module
runs as a script); `batch_size = 0` models `range`'s `ValueError` on a zero
step. -/
def generate_training_data (g : DatasetGenerator)
    (global_formatter_defined : Bool) (store : String → List Point)
    (env : CometEnv) (collection_name : String) (batch_size : Nat) : RunResult :=
  match fetch_all_cleaned_content store collection_name with
  | .error e => ⟨.error e, [], []⟩
  | .ok all_contents =>
    if batch_size = 0 then ⟨.error .valueError, [], []⟩
    else
      match genLoop all_contents batch_size global_formatter_defined
          g.api_communicator (all_contents.length + 1) 0 [] [] with
      | (.error e, calls) => ⟨.error e, calls, []⟩
      | (.ok response, calls) =>
        ⟨.ok response, calls, push_to_comet env response collection_name⟩

end DatasetGenerator

/-- The batch sequence the loop header of lines 65-66 slices out:
`all_contents[i : i + batch_size]` for `i in range(0, len(all_contents),
batch_size)` (fuel-based like `genLoop`). -/
def batchesAux (all_contents : List String) (batch_size : Nat) :
    Nat → Nat → List (List String)
  | 0, _ => []
  | fuel + 1, i =>
    if i < all_contents.length then
      ((all_contents.drop i).take batch_size)
        :: batchesAux all_contents batch_size fuel (i + batch_size)
    else []

/-- The list of batches of one run. -/
def batches (all_contents : List String) (batch_size : Nat) : List (List String) :=
  batchesAux all_contents batch_size (all_contents.length + 1) 0

/-- Store of the §8 scenario: collection with the three records A, B, C. -/
def c1Store : String → List Point :=
  fun _ => [⟨some ("A")⟩, ⟨some ("B")⟩, ⟨some ("C")⟩]

/-- CompletionClient responses of the §8 scenario: two objects for the first
batch, one for the second — exactly one object per record. -/
def c1Api : Nat → Except PyError (List GenObj)
  | 0 => .ok [⟨"i1", "0"⟩, ⟨"i2", "1"⟩]
  | 1 => .ok [⟨"i3", "2"⟩]
  | _ => .ok []

/-- The generator instance of the §8 scenario. -/
def c1Gen : DatasetGenerator := ⟨(), c1Api, ⟨0⟩⟩

/-- A store holding a single point whose payload lacks the
`cleaned_content` key. -/
def c7Store : String → List Point := fun _ => [⟨none⟩]

/-- A store whose single page holds one empty and two non-empty cleaned
contents, all keys present. -/
def c7WitnessStore : String → List Point :=
  fun _ => [⟨some ("A")⟩, ⟨some ("")⟩, ⟨some ("B")⟩]

/-- The generator instance of the C5 witness scenario. -/
def c5Gen : DatasetGenerator := ⟨(), fun _ => .ok [⟨"i", "0"⟩], ⟨0⟩⟩

/-- One-record store of the C5 witness scenario. -/
def c5Store : String → List Point := fun _ => [⟨some ("A")⟩]

/-- Store and generator of the C9 witness scenarios. -/
def c9Gen : DatasetGenerator := ⟨(), fun _ => .ok [⟨"i", "0"⟩], ⟨0⟩⟩

/-- A store whose collection is empty. -/
def c9EmptyStore : String → List Point := fun _ => []

/-- A store whose collection holds exactly one record. -/
def c9OneStore : String → List Point := fun _ => [⟨some ("A")⟩]

/-- Responses of the C6 witness scenario: the first call returns one
object, the second fails. -/
def c6Gen : DatasetGenerator :=
  ⟨(), fun n => if n = 0 then .ok [⟨"i1", "0"⟩] else .error .completionError, ⟨0⟩⟩

/-- Three-record store of the C6 witness scenario. -/
def c6Store : String → List Point :=
  fun _ => [⟨some ("A")⟩, ⟨some ("B")⟩, ⟨some ("C")⟩]

/-- Responses of the C2 witness scenario: exactly one object per record of
each batch (two, then one). -/
def c2Gen : DatasetGenerator :=
  ⟨(), fun n =>
    if n = 0 then .ok [⟨"i1", "0"⟩, ⟨"i2", "1"⟩]
    else if n = 1 then .ok [⟨"i3", "2"⟩]
    else .ok [], ⟨0⟩⟩

/-- Three-record store of the C2 witness scenario. -/
def c2Store : String → List Point :=
  fun _ => [⟨some ("A")⟩, ⟨some ("B")⟩, ⟨some ("C")⟩]

namespace DatasetGenerator

/-- Once the loop index reaches the list length, `genLoop` returns the
accumulated response and prompts untouched, for any fuel. -/
theorem genLoop_stop (all_contents : List String) (batch_size : Nat)
    (gfd : Bool) (api : Nat → Except PyError (List GenObj))
    (fuel i : Nat) (response : List GenObj) (calls : List String)
    (h : all_contents.length ≤ i) :
    genLoop all_contents batch_size gfd api fuel i response calls
      = (.ok response, calls) := by
  cases fuel with
  | zero => rfl
  | succ fuel => simp [genLoop, Nat.not_lt.mpr h]

/-- One unfolding of the batch loop at an in-range index, in the
run-as-script case. -/
theorem genLoop_step (all_contents : List String) (batch_size : Nat)
    (api : Nat → Except PyError (List GenObj)) (fuel i : Nat)
    (response : List GenObj) (calls : List String)
    (hi : i < all_contents.length) :
    genLoop all_contents batch_size true api (fuel + 1) i response calls
      = (match api calls.length with
         | .error e =>
           (.error e,
            calls ++ [DataFormatter.format_prompt ((all_contents.drop i).take batch_size) i])
         | .ok objs =>
           match overwriteLoop all_contents (response ++ objs) i batch_size with
           | .error e =>
             (.error e,
              calls ++ [DataFormatter.format_prompt ((all_contents.drop i).take batch_size) i])
           | .ok response2 =>
             genLoop all_contents batch_size true api fuel (i + batch_size) response2
               (calls ++ [DataFormatter.format_prompt ((all_contents.drop i).take batch_size) i])) := by
  simp [genLoop, hi]

/-- The overwrite loop succeeds and preserves the response length whenever
the whole index range is inside both lists. -/
theorem overwriteLoop_ok (all_contents : List String) :
    ∀ (k j : Nat) (response : List GenObj),
      j + k ≤ all_contents.length → j + k ≤ response.length →
      ∃ r2, overwriteLoop all_contents response j k = .ok r2
        ∧ r2.length = response.length := by
  intro k
  induction k with
  | zero => intro j r _ _; exact ⟨r, rfl, rfl⟩
  | succ k ih =>
    intro j r hc hr
    have hjc : j < all_contents.length := by omega
    have hjr : j < r.length := by omega
    simp only [overwriteLoop]
    rw [dif_pos hjc, dif_pos hjr]
    have hlen :
        (r.set j { r.get ⟨j, hjr⟩ with content := all_contents.get ⟨j, hjc⟩ }).length
          = r.length := List.length_set r j _
    obtain ⟨r2, heq, hl⟩ := ih (j + 1) _ (by omega) (by rw [hlen]; omega)
    exact ⟨r2, heq, by rw [hl, hlen]⟩

/-- The overwrite loop raises `IndexError` as soon as the index range runs
past the end of the (equally long) contents and response lists. -/
theorem overwriteLoop_err (all_contents : List String) :
    ∀ (k j : Nat) (response : List GenObj),
      response.length = all_contents.length → j ≤ all_contents.length →
      all_contents.length < j + k →
      overwriteLoop all_contents response j k = .error .indexError := by
  intro k
  induction k with
  | zero => intro j r _ hj h; exact absurd h (by omega)
  | succ k ih =>
    intro j r hlen hj hlt
    by_cases hjc : j < all_contents.length
    · have hjr : j < r.length := by omega
      simp only [overwriteLoop]
      rw [dif_pos hjc, dif_pos hjr]
      exact ih (j + 1) _ (by simp [hlen]) (by omega) (by omega)
    · simp only [overwriteLoop]
      rw [dif_neg hjc]

/-- Running the loop across `t` full batches with full-length responses:
the loop reaches index `i + t * batch_size` having sent `t` more prompts,
the response list keeping pace with the index. -/
theorem genLoop_reach (all_contents : List String) (batch_size : Nat)
    (api : Nat → Except PyError (List GenObj)) (hb : 0 < batch_size) :
    ∀ (t fuel i : Nat) (response : List GenObj) (calls : List String),
      (∀ u, u < t → ∃ l, api (calls.length + u) = .ok l ∧ l.length = batch_size) →
      i + t * batch_size ≤ all_contents.length →
      response.length = i →
      all_contents.length - i < fuel →
      ∃ fuel2 response2 calls2,
        genLoop all_contents batch_size true api fuel i response calls
          = genLoop all_contents batch_size true api fuel2 (i + t * batch_size)
              response2 calls2
        ∧ response2.length = i + t * batch_size
        ∧ calls2.length = calls.length + t
        ∧ all_contents.length - (i + t * batch_size) < fuel2 := by
  intro t
  induction t with
  | zero =>
    intro fuel i r c _ _ hr hf
    exact ⟨fuel, r, c, by simp, by simpa using hr, by simp, by simpa using hf⟩
  | succ t ih =>
    intro fuel i r c hapi hle hr hf
    have hbt : batch_size ≤ (t + 1) * batch_size :=
      Nat.le_mul_of_pos_left batch_size (Nat.succ_pos t)
    have hib : i + batch_size ≤ all_contents.length := by omega
    have hi : i < all_contents.length := by omega
    obtain ⟨l, hl, hlen⟩ := hapi 0 (Nat.succ_pos t)
    have hl' : api c.length = Except.ok l := by simpa using hl
    obtain ⟨fuel', rfl⟩ : ∃ f, fuel = f + 1 := ⟨fuel - 1, by omega⟩
    obtain ⟨r2, hov, hr2⟩ :=
      overwriteLoop_ok all_contents batch_size i (r ++ l) hib
        (by simp [hr, hlen])
    have hr2' : r2.length = i + batch_size := by
      rw [hr2]; simp [hr, hlen]
    obtain ⟨fuel2, r3, c3, heq, hr3, hc3, hf3⟩ :=
      ih fuel' (i + batch_size) r2
        (c ++ [DataFormatter.format_prompt ((all_contents.drop i).take batch_size) i])
        (by
          intro u hu
          obtain ⟨l2, hl2, hlen2⟩ := hapi (u + 1) (by omega)
          refine ⟨l2, ?_, hlen2⟩
          rw [List.length_append]
          simpa [Nat.add_assoc, Nat.add_comm, Nat.add_left_comm] using hl2)
        (by
          have h1 : (t + 1) * batch_size = t * batch_size + batch_size := by ring
          omega)
        hr2' (by omega)
    refine ⟨fuel2, r3, c3, ?_, ?_, ?_, ?_⟩
    · rw [genLoop_step all_contents batch_size api fuel' i r c hi, hl']
      dsimp only
      rw [hov]
      dsimp only
      rw [show i + (t + 1) * batch_size = i + batch_size + t * batch_size from by ring]
      exact heq
    · rw [hr3]
      have h1 : (t + 1) * batch_size = t * batch_size + batch_size := by ring
      omega
    · rw [hc3]; simp; omega
    · have h1 : (t + 1) * batch_size = t * batch_size + batch_size := by ring
      omega

end DatasetGenerator

/-- Characterization of `format_data`'s loop in the non-example mode: it
appends one numbered marker block per item to the accumulated text, numbers
running from `start_index + index` upward. -/
theorem format_data_go_spec (start_index : Nat) :
    ∀ (l : List String) (index : Nat) (text : String),
      DataFormatter.format_data_go false start_index l index text
        = text ++ markerBlock l (start_index + index) := by
  intro l
  induction l with
  | nil => intro index text; exact (String.append_empty text).symm
  | cons data_point rest ih =>
    intro index text
    simp only [DataFormatter.format_data_go, markerBlock, Bool.not_false, if_true]
    rw [ih (index + 1)]
    rw [show start_index + (index + 1) = (start_index + index) + 1 from by omega]
    simp [String.append_assoc]

/-- Applying `format_data` with `is_example = False` yields exactly the marker block
starting at `start_index`. -/
theorem format_data_false_eq (data_points : List String) (start_index : Nat) :
    DataFormatter.format_data data_points false start_index
      = markerBlock data_points start_index := by
  unfold DataFormatter.format_data
  rw [format_data_go_spec]
  simp [String.empty_append]

/-- When every point on the page carries the `cleaned_content` key, the
fetch loop keeps exactly the non-empty values, in order. -/
theorem fetchLoop_filterMap :
    ∀ (points : List Point) (acc : List String),
      (∀ p ∈ points, p.payload ≠ none) →
      DatasetGenerator.fetchLoop points acc
        = .ok (acc ++ points.filterMap (fun p =>
            match p.payload with
            | some cleaned_content =>
              if cleaned_content ≠ "" then some cleaned_content else none
            | none => none)) := by
  intro points
  induction points with
  | nil => intro acc _; simp [DatasetGenerator.fetchLoop]
  | cons p rest ih =>
    intro acc hall
    match hp : p.payload with
    | none => exact absurd hp (hall p (List.mem_cons_self p rest))
    | some c =>
      simp only [DatasetGenerator.fetchLoop, hp]
      rw [ih _ (fun q hq => hall q (List.mem_cons_of_mem p hq))]
      by_cases hc : c = ""
      · subst hc; simp [List.filterMap_cons, hp]
      · simp [List.filterMap_cons, hp, hc]

/-- Lemma: `generate_training_data` never consults the constructor-supplied
`data_formatter` field (line 67 resolves the module-level name instead), so
the run is invariant under replacing it. -/
theorem generate_formatter_irrel (file_handler : Unit)
    (api : Nat → Except PyError (List GenObj)) (f f2 : DataFormatterObj)
    (gfd : Bool) (store : String → List Point) (env : CometEnv)
    (collection_name : String) (batch_size : Nat) :
    DatasetGenerator.generate_training_data ⟨file_handler, api, f⟩ gfd store env
        collection_name batch_size
      = DatasetGenerator.generate_training_data ⟨file_handler, api, f2⟩ gfd store env
          collection_name batch_size := rfl

/-- Past the end of the contents, no further batch is sliced. -/
theorem batchesAux_stop (all_contents : List String) (batch_size : Nat)
    (fuel i : Nat) (h : all_contents.length ≤ i) :
    batchesAux all_contents batch_size fuel i = [] := by
  cases fuel with
  | zero => rfl
  | succ fuel => simp [batchesAux, Nat.not_lt.mpr h]

/-- Concatenating the batches from index `i` on reproduces the remaining
contents. -/
theorem batchesAux_flatten (all_contents : List String) (batch_size : Nat)
    (hb : 0 < batch_size) :
    ∀ (fuel i : Nat), all_contents.length - i < fuel →
      (batchesAux all_contents batch_size fuel i).flatten = all_contents.drop i := by
  intro fuel
  induction fuel with
  | zero => intro i h; exact absurd h (Nat.not_lt_zero _)
  | succ fuel ih =>
    intro i h
    by_cases hi : i < all_contents.length
    · simp only [batchesAux, if_pos hi, List.flatten_cons]
      rw [ih (i + batch_size) (by omega)]
      exact List.drop_take_append_drop all_contents i batch_size
    · simp only [batchesAux, if_neg hi, List.flatten_nil]
      exact (List.drop_eq_nil_of_le (by omega)).symm

/-- The number of batches from index `i` on is the ceiling of the remaining
length over the batch size. -/
theorem batchesAux_length (all_contents : List String) (batch_size : Nat)
    (hb : 0 < batch_size) :
    ∀ (fuel i : Nat), all_contents.length - i < fuel →
      (batchesAux all_contents batch_size fuel i).length
        = (all_contents.length - i + batch_size - 1) / batch_size := by
  intro fuel
  induction fuel with
  | zero => intro i h; exact absurd h (Nat.not_lt_zero _)
  | succ fuel ih =>
    intro i h
    by_cases hi : i < all_contents.length
    · simp only [batchesAux, if_pos hi, List.length_cons]
      rw [ih (i + batch_size) (by omega)]
      rcases le_or_lt (all_contents.length - i) batch_size with hc | hc
      · have h0 : (all_contents.length - (i + batch_size) + batch_size - 1) / batch_size = 0 :=
          Nat.div_eq_of_lt (by omega)
        have h1 : (all_contents.length - i + batch_size - 1) / batch_size = 1 :=
          Nat.div_eq_of_lt_le (by omega) (by omega)
        omega
      · rw [show all_contents.length - (i + batch_size) + batch_size - 1
              = all_contents.length - i - 1 from by omega]
        rw [show all_contents.length - i + batch_size - 1
              = (all_contents.length - i - 1) + batch_size from by omega]
        rw [Nat.add_div_right _ hb]
    · simp only [batchesAux, if_neg hi, List.length_nil]
      rw [show all_contents.length - i = 0 from by omega]
      exact (Nat.div_eq_of_lt (by omega)).symm

/-- The `k`-th batch from index `i` on is the contiguous slice starting at
`i + k * batch_size`. -/
theorem batchesAux_getD (all_contents : List String) (batch_size : Nat)
    (hb : 0 < batch_size) :
    ∀ (fuel i k : Nat), all_contents.length - i < fuel →
      k < (batchesAux all_contents batch_size fuel i).length →
      (batchesAux all_contents batch_size fuel i).getD k []
        = (all_contents.drop (i + k * batch_size)).take batch_size := by
  intro fuel
  induction fuel with
  | zero => intro i k h; exact absurd h (Nat.not_lt_zero _)
  | succ fuel ih =>
    intro i k h hk
    by_cases hi : i < all_contents.length
    · cases k with
      | zero => simp [batchesAux, if_pos hi]
      | succ k =>
        simp only [batchesAux, if_pos hi, List.length_cons] at hk
        simp only [batchesAux, if_pos hi, List.getD_cons_succ]
        rw [ih (i + batch_size) k (by omega) (by omega)]
        congr 1
        rw [show i + (k + 1) * batch_size = i + batch_size + k * batch_size from by ring]
    · rw [batchesAux_stop all_contents batch_size _ i (by omega)] at hk
      exact absurd hk (by simp)

/-- C1: evaluating `generate_training_data` on the claim's own scenario
(records `["A","B","C"]`, `batch_size = 2`, responses of exactly the batch
lengths) does NOT yield the merged dataset the claim demands: the overwrite
loop of the final short batch iterates `j` over `range(2, 4)` and
subscripting the 3-element lists at `j = 3` raises `IndexError`.  Both API
calls are made first, and no output file is written. -/
theorem claim_c1_scenario_run :
    (DatasetGenerator.generate_training_data c1Gen true c1Store
        ⟨true, true, true, true⟩ ("cleaned_posts") 2).result = .error .indexError
    ∧ (DatasetGenerator.generate_training_data c1Gen true c1Store
        ⟨true, true, true, true⟩ ("cleaned_posts") 2).calls.length = 2
    ∧ (DatasetGenerator.generate_training_data c1Gen true c1Store
        ⟨true, true, true, true⟩ ("cleaned_posts") 2).steps = [] := by
  refine ⟨?_, ?_, ?_⟩ <;> rfl

/-- C3: for every batch size `b ≥ 1`, the loop header of lines 65-66
partitions the fetched records into `ceil(n / b)` contiguous batches — the
`k`-th being the slice starting at `k * b`, so starts strictly increase —
and their concatenation is the original fetch-order sequence. -/
theorem claim_c3_partition (all_contents : List String) (batch_size : Nat)
    (hb : 0 < batch_size) :
    (batches all_contents batch_size).length
        = (all_contents.length + batch_size - 1) / batch_size
    ∧ (batches all_contents batch_size).flatten = all_contents
    ∧ ∀ k, k < (batches all_contents batch_size).length →
        (batches all_contents batch_size).getD k []
          = (all_contents.drop (k * batch_size)).take batch_size := by
  unfold batches
  refine ⟨?_, ?_, ?_⟩
  · rw [batchesAux_length all_contents batch_size hb _ 0 (by omega)]
    simp
  · rw [batchesAux_flatten all_contents batch_size hb _ 0 (by omega)]
    rfl
  · intro k hk
    rw [batchesAux_getD all_contents batch_size hb _ 0 k (by omega) hk]
    simp

/-- C3 witness: the partition facts instantiated at a five-element
collection with batch size 2 (and its third batch, starting at index 4). -/
theorem claim_c3_witness :
    (batches ["a", "b", "c", "d", "e"] 2).length
        = ((["a", "b", "c", "d", "e"] : List String).length + 2 - 1) / 2
    ∧ (batches ["a", "b", "c", "d", "e"] 2).flatten = ["a", "b", "c", "d", "e"]
    ∧ (batches ["a", "b", "c", "d", "e"] 2).getD 2 []
        = ((["a", "b", "c", "d", "e"] : List String).drop (2 * 2)).take 2 :=
  ⟨(claim_c3_partition ["a", "b", "c", "d", "e"] 2 (by decide)).1,
   (claim_c3_partition ["a", "b", "c", "d", "e"] 2 (by decide)).2.1,
   (claim_c3_partition ["a", "b", "c", "d", "e"] 2 (by decide)).2.2 2 (by decide)⟩

/-- C4: for every non-empty batch, `format_prompt` decomposes as the fixed
preamble, then the sentence stating the exact expected output count
(`len(batch)`), then the contents header, then `markerBlock`: one
`Content number N` marker per item with `N` increasing by one from
`start_index`, each marker followed by that item's literal text. -/
theorem claim_c4_prompt_markers (inference_posts : List String)
    (start_index : Nat) (hne : inference_posts ≠ []) :
    DataFormatter.format_prompt inference_posts start_index
      = (USER_PROMPT
          ++ ("You must generate exactly a list of "
            ++ (toString inference_posts.length
              ++ " json objects, using the contents provided under CONTENTS FOR GENERATION\n")))
        ++ (("\nCONTENTS FOR GENERATION: \n")
          ++ markerBlock inference_posts start_index) := by
  unfold DataFormatter.format_prompt DataFormatter.format_batch
  rw [format_data_false_eq]

/-- C4 witness: the prompt decomposition at batch `["A", "B"]` and start
index 5. -/
theorem claim_c4_witness :
    DataFormatter.format_prompt ["A", "B"] 5
      = (USER_PROMPT
          ++ ("You must generate exactly a list of "
            ++ (toString (["A", "B"] : List String).length
              ++ " json objects, using the contents provided under CONTENTS FOR GENERATION\n")))
        ++ (("\nCONTENTS FOR GENERATION: \n") ++ markerBlock ["A", "B"] 5) :=
  claim_c4_prompt_markers ["A", "B"] 5 (by decide)

/-- C7 counterexample: a record whose payload lacks `cleaned_content` is not
dropped — `fetch_all_cleaned_content` raises `KeyError` at the subscript of
line 111, so the fetch does not return the empty record list the claim's
"dropped if absent" behavior would produce. -/
theorem claim_c7_counterexample :
    DatasetGenerator.fetch_all_cleaned_content c7Store ("cleaned_posts")
        = .error .keyError
    ∧ DatasetGenerator.fetch_all_cleaned_content c7Store ("cleaned_posts")
        ≠ .ok [] :=
  ⟨rfl, by decide⟩

/-- C7 amended: `fetch_all_cleaned_content` uses a single scroll call
bounded at 10000 records (later records are omitted), and — provided every
record on that page carries the `cleaned_content` key — returns, in fetch
order, exactly the values that are non-empty, dropping the empty ones.
(A record missing the key instead raises `KeyError`.) -/
theorem claim_c7_amended_fetch (store : String → List Point)
    (collection_name : String)
    (hkeys : ∀ p ∈ (store collection_name).take 10000, p.payload ≠ none) :
    DatasetGenerator.fetch_all_cleaned_content store collection_name
      = .ok (((store collection_name).take 10000).filterMap (fun p =>
          match p.payload with
          | some cleaned_content =>
            if cleaned_content ≠ "" then some cleaned_content else none
          | none => none)) := by
  unfold DatasetGenerator.fetch_all_cleaned_content
  rw [fetchLoop_filterMap _ _ hkeys]
  simp

/-- C7 witness: the amended fetch behavior at a concrete three-record
store. -/
theorem claim_c7_witness :
    DatasetGenerator.fetch_all_cleaned_content c7WitnessStore ("cleaned_posts")
      = .ok (((c7WitnessStore ("cleaned_posts")).take 10000).filterMap (fun p =>
          match p.payload with
          | some cleaned_content =>
            if cleaned_content ≠ "" then some cleaned_content else none
          | none => none)) :=
  claim_c7_amended_fetch c7WitnessStore ("cleaned_posts") (by decide)

/-- C5: line 67 resolves the module-level name `data_formatter`, not the
instance field `self.data_formatter`.  Consequences proved: (a) with the
global unbound (the module imported rather than run as a script), any
non-empty collection makes `generate_training_data` raise `NameError` in
the first loop iteration, before any CompletionClient call; (b) the run is
invariant under replacing the constructor-supplied formatter, which is
therefore never used for prompt building. -/
theorem claim_c5_global_formatter (g : DatasetGenerator)
    (store : String → List Point) (env : CometEnv) (collection_name : String)
    (batch_size : Nat) (all_contents : List String)
    (hf : DatasetGenerator.fetch_all_cleaned_content store collection_name
        = .ok all_contents)
    (hne : all_contents ≠ []) (hb : 0 < batch_size) :
    (DatasetGenerator.generate_training_data g false store env collection_name
        batch_size).result = .error .nameError
    ∧ (DatasetGenerator.generate_training_data g false store env collection_name
        batch_size).calls = []
    ∧ ∀ f f2 : DataFormatterObj,
        DatasetGenerator.generate_training_data ⟨g.file_handler, g.api_communicator, f⟩
            true store env collection_name batch_size
          = DatasetGenerator.generate_training_data ⟨g.file_handler, g.api_communicator, f2⟩
              true store env collection_name batch_size := by
  have hn : 0 < all_contents.length := List.length_pos.mpr hne
  have hgen : DatasetGenerator.generate_training_data g false store env
      collection_name batch_size = ⟨.error .nameError, [], []⟩ := by
    unfold DatasetGenerator.generate_training_data
    rw [hf]
    dsimp only
    rw [if_neg (by omega)]
    have hloop : DatasetGenerator.genLoop all_contents batch_size false
        g.api_communicator (all_contents.length + 1) 0 [] []
          = (.error .nameError, []) := by
      simp [DatasetGenerator.genLoop, hn]
    rw [hloop]
  rw [hgen]
  exact ⟨rfl, rfl, fun f f2 =>
    generate_formatter_irrel g.file_handler g.api_communicator f f2 true store env
      collection_name batch_size⟩

/-- C5 witness: on a one-record collection with the global unbound,
the run raises `NameError` without calling the API. -/
theorem claim_c5_witness :
    (DatasetGenerator.generate_training_data c5Gen false c5Store
        ⟨true, true, true, true⟩ ("cleaned_posts") 1).result = .error .nameError
    ∧ (DatasetGenerator.generate_training_data c5Gen false c5Store
        ⟨true, true, true, true⟩ ("cleaned_posts") 1).calls = [] :=
  ⟨(claim_c5_global_formatter c5Gen c5Store ⟨true, true, true, true⟩
      ("cleaned_posts") 1 ["A"] (by decide) (by decide) (by decide)).1,
   (claim_c5_global_formatter c5Gen c5Store ⟨true, true, true, true⟩
      ("cleaned_posts") 1 ["A"] (by decide) (by decide) (by decide)).2.1⟩

/-- C8: the artifact push is best-effort.  (a) The caller-visible outcome of
`generate_training_data` does not depend on which push steps fail — the
broad `except Exception` swallows them all; (b) whenever a fallible push
step fails, the error is logged; (c) when only the remote
`log_artifact` upload fails, the local JSON file write — which happens
earlier in the `try:` block — has already been performed. -/
theorem claim_c8_push_best_effort (g : DatasetGenerator) (gfd : Bool)
    (store : String → List Point) (collection_name : String) (batch_size : Nat) :
    (∀ env env2 : CometEnv,
        (DatasetGenerator.generate_training_data g gfd store env collection_name
            batch_size).result
          = (DatasetGenerator.generate_training_data g gfd store env2 collection_name
              batch_size).result)
    ∧ (∀ (env : CometEnv) (data : List GenObj) (nm : String),
        env.experimentOk = false ∨ env.writeOk = false ∨ env.artifactOk = false
            ∨ env.logOk = false →
          CometStep.errorLogged ∈ DatasetGenerator.push_to_comet env data nm)
    ∧ (∀ (data : List GenObj) (nm : String),
        CometStep.fileWritten (nm ++ ".json") (serialize data)
          ∈ DatasetGenerator.push_to_comet ⟨true, true, true, false⟩ data nm) := by
  refine ⟨fun env env2 => ?_, fun env data nm h => ?_, fun data nm => ?_⟩
  · unfold DatasetGenerator.generate_training_data
    rcases hfe : DatasetGenerator.fetch_all_cleaned_content store collection_name
      with e | all
    · rfl
    · dsimp only
      by_cases hb0 : batch_size = 0
      · simp only [if_pos hb0]
      · simp only [if_neg hb0]
        rcases hgl : DatasetGenerator.genLoop all batch_size gfd g.api_communicator
            (all.length + 1) 0 [] [] with ⟨res, calls⟩
        rcases res with e | resp <;> rfl
  · rcases env with ⟨e1, w1, a1, l1⟩
    cases e1 <;> cases w1 <;> cases a1 <;> cases l1 <;>
      simp_all [DatasetGenerator.push_to_comet]
  · simp [DatasetGenerator.push_to_comet]

/-- C8 witness: with only the remote upload failing, the error is logged and
the local file write is among the performed steps. -/
theorem claim_c8_witness :
    CometStep.errorLogged
        ∈ DatasetGenerator.push_to_comet ⟨true, true, true, false⟩ [] ("cleaned_posts")
    ∧ CometStep.fileWritten ("cleaned_posts" ++ ".json") (serialize [])
        ∈ DatasetGenerator.push_to_comet ⟨true, true, true, false⟩ [] ("cleaned_posts") :=
  ⟨(claim_c8_push_best_effort ⟨(), fun _ => .ok [], ⟨0⟩⟩ true (fun _ => [])
      ("cleaned_posts") 1).2.1 ⟨true, true, true, false⟩ [] ("cleaned_posts")
      (Or.inr (Or.inr (Or.inr rfl))),
   (claim_c8_push_best_effort ⟨(), fun _ => .ok [], ⟨0⟩⟩ true (fun _ => [])
      ("cleaned_posts") 1).2.2 [] ("cleaned_posts")⟩

/-- C10: fixing the ContentStore snapshot and the CompletionClient response
sequence fixes the whole observable run — result, prompts, and the file
write with its serialized bytes — so two runs are byte-identical.  (The
formatter instance may even differ, since it is never consulted; prompt
building is the pure `format_prompt` of the embedding.) -/
theorem claim_c10_deterministic (file_handler : Unit)
    (api api2 : Nat → Except PyError (List GenObj)) (f f2 : DataFormatterObj)
    (store store2 : String → List Point) (env : CometEnv) (gfd : Bool)
    (collection_name : String) (batch_size : Nat)
    (hapi : ∀ n, api n = api2 n) (hstore : ∀ nm, store nm = store2 nm) :
    DatasetGenerator.generate_training_data ⟨file_handler, api, f⟩ gfd store env
        collection_name batch_size
      = DatasetGenerator.generate_training_data ⟨file_handler, api2, f2⟩ gfd store2 env
          collection_name batch_size := by
  have h1 : api = api2 := funext hapi
  have h2 : store = store2 := funext hstore
  subst h1
  subst h2
  exact generate_formatter_irrel file_handler api f f2 gfd store env collection_name
    batch_size

/-- C10 witness: two runs over pointwise-equal stores and response
sequences (written differently, with different formatter instances) are
identical. -/
theorem claim_c10_witness :
    DatasetGenerator.generate_training_data ⟨(), fun _ => .ok [⟨"i", "0"⟩], ⟨0⟩⟩ true
        (fun _ => [⟨some ("A")⟩]) ⟨true, true, true, true⟩ ("cleaned_posts") 1
      = DatasetGenerator.generate_training_data ⟨(), fun _ => .ok [⟨"i", "0"⟩], ⟨1⟩⟩ true
        (fun _ => [⟨some ("A")⟩]) ⟨true, true, true, true⟩ ("cleaned_posts") 1 :=
  claim_c10_deterministic () (fun _ => .ok [⟨"i", "0"⟩]) (fun _ => .ok [⟨"i", "0"⟩])
    ⟨0⟩ ⟨1⟩ (fun _ => [⟨some ("A")⟩]) (fun _ => [⟨some ("A")⟩])
    ⟨true, true, true, true⟩ true ("cleaned_posts") 1 (fun _ => rfl) (fun _ => rfl)

/-- C9: boundary behavior.  A collection fetching no records yields the
empty dataset with no CompletionClient call; a collection with exactly
`batch_size` records makes exactly one call (whatever the response). -/
theorem claim_c9_boundaries (g : DatasetGenerator) (store : String → List Point)
    (env : CometEnv) (collection_name : String) (batch_size : Nat)
    (all_contents : List String)
    (hf : DatasetGenerator.fetch_all_cleaned_content store collection_name
        = .ok all_contents)
    (hb : 0 < batch_size) :
    (all_contents = [] →
      (DatasetGenerator.generate_training_data g true store env collection_name
          batch_size).result = .ok []
      ∧ (DatasetGenerator.generate_training_data g true store env collection_name
          batch_size).calls = [])
    ∧ (all_contents.length = batch_size →
      (DatasetGenerator.generate_training_data g true store env collection_name
          batch_size).calls.length = 1) := by
  constructor
  · intro hempty
    subst hempty
    have hgen : DatasetGenerator.generate_training_data g true store env
        collection_name batch_size
          = ⟨.ok [], [], DatasetGenerator.push_to_comet env [] collection_name⟩ := by
      unfold DatasetGenerator.generate_training_data
      rw [hf]
      dsimp only
      rw [if_neg (by omega)]
      rw [DatasetGenerator.genLoop_stop _ _ _ _ _ 0 [] [] (by simp)]
    rw [hgen]
    exact ⟨rfl, rfl⟩
  · intro hlen
    have hn : 0 < all_contents.length := by omega
    unfold DatasetGenerator.generate_training_data
    rw [hf]
    dsimp only
    rw [if_neg (by omega)]
    rw [DatasetGenerator.genLoop_step all_contents batch_size g.api_communicator
      all_contents.length 0 [] [] hn]
    rcases hapi : g.api_communicator ([] : List String).length with e | objs
    · rfl
    · dsimp only
      rcases hov : DatasetGenerator.overwriteLoop all_contents ([] ++ objs) 0 batch_size
        with e | response2
      · rfl
      · dsimp only
        rw [DatasetGenerator.genLoop_stop _ _ _ _ _ (0 + batch_size) response2 _
          (by omega)]
        rfl

/-- C9 witness: the boundary facts at an empty collection and at a
one-record collection with `batch_size = 1`. -/
theorem claim_c9_witness :
    ((DatasetGenerator.generate_training_data c9Gen true c9EmptyStore
        ⟨true, true, true, true⟩ ("cleaned_posts") 1).result = .ok []
      ∧ (DatasetGenerator.generate_training_data c9Gen true c9EmptyStore
          ⟨true, true, true, true⟩ ("cleaned_posts") 1).calls = [])
    ∧ (DatasetGenerator.generate_training_data c9Gen true c9OneStore
        ⟨true, true, true, true⟩ ("cleaned_posts") 1).calls.length = 1 :=
  ⟨(claim_c9_boundaries c9Gen c9EmptyStore ⟨true, true, true, true⟩
      ("cleaned_posts") 1 [] (by decide) (by decide)).1 rfl,
   (claim_c9_boundaries c9Gen c9OneStore ⟨true, true, true, true⟩
      ("cleaned_posts") 1 ["A"] (by decide) (by decide)).2 (by decide)⟩

/-- C6: if the CompletionClient call for batch `k` fails — the earlier
calls having returned full-length batches — `generate_training_data`
propagates that error: the run's result is exactly that error, exactly
`k + 1` calls were made (the remaining batches are not processed), and no
output-file step is performed for the collection. -/
theorem claim_c6_completion_failure_aborts (g : DatasetGenerator)
    (store : String → List Point) (env : CometEnv) (collection_name : String)
    (batch_size k : Nat) (e : PyError) (all_contents : List String)
    (hf : DatasetGenerator.fetch_all_cleaned_content store collection_name
        = .ok all_contents)
    (hb : 0 < batch_size)
    (hk : k * batch_size < all_contents.length)
    (hpre : ∀ m, m < k → ∃ l, g.api_communicator m = .ok l ∧ l.length = batch_size)
    (herr : g.api_communicator k = .error e) :
    (DatasetGenerator.generate_training_data g true store env collection_name
        batch_size).result = .error e
    ∧ (DatasetGenerator.generate_training_data g true store env collection_name
        batch_size).steps = []
    ∧ (DatasetGenerator.generate_training_data g true store env collection_name
        batch_size).calls.length = k + 1 := by
  obtain ⟨fuel2, r2, c2, heq, hr2, hc2, hf2⟩ :=
    DatasetGenerator.genLoop_reach all_contents batch_size g.api_communicator hb k
      (all_contents.length + 1) 0 [] []
      (by intro u hu; simpa using hpre u hu)
      (by omega) rfl (by omega)
  simp only [Nat.zero_add] at heq hr2 hf2
  simp only [List.length_nil, Nat.zero_add] at hc2
  obtain ⟨f2, rfl⟩ : ∃ f, fuel2 = f + 1 := ⟨fuel2 - 1, by omega⟩
  have hstep := DatasetGenerator.genLoop_step all_contents batch_size
    g.api_communicator f2 (k * batch_size) r2 c2 hk
  rw [hc2, herr] at hstep
  dsimp only at hstep
  have hloop := heq.trans hstep
  have hgen : DatasetGenerator.generate_training_data g true store env
      collection_name batch_size
        = ⟨.error e,
           c2 ++ [DataFormatter.format_prompt
             ((all_contents.drop (k * batch_size)).take batch_size) (k * batch_size)],
           []⟩ := by
    unfold DatasetGenerator.generate_training_data
    rw [hf]
    dsimp only
    rw [if_neg (by omega), hloop]
  rw [hgen]
  refine ⟨rfl, rfl, ?_⟩
  simp [hc2]

/-- C6 witness: with `batch_size = 1` and the second call failing, the
run stops after two calls with that error and writes nothing. -/
theorem claim_c6_witness :
    (DatasetGenerator.generate_training_data c6Gen true c6Store
        ⟨true, true, true, true⟩ ("cleaned_posts") 1).result
          = .error .completionError
    ∧ (DatasetGenerator.generate_training_data c6Gen true c6Store
        ⟨true, true, true, true⟩ ("cleaned_posts") 1).steps = []
    ∧ (DatasetGenerator.generate_training_data c6Gen true c6Store
        ⟨true, true, true, true⟩ ("cleaned_posts") 1).calls.length = 1 + 1 :=
  claim_c6_completion_failure_aborts c6Gen c6Store ⟨true, true, true, true⟩
    ("cleaned_posts") 1 1 .completionError ["A", "B", "C"] (by decide) (by decide)
    (by decide)
    (by
      intro m hm
      have hm0 : m = 0 := by omega
      subst hm0
      exact ⟨[⟨"i1", "0"⟩], rfl, rfl⟩)
    rfl

/-- C2: with `batch_size > 1` not dividing the record count, even
per-record length-correct responses cannot save the run: all `ceil(n/b)`
CompletionClient calls are made, and then the content-overwrite loop of the
final (shorter) batch raises `IndexError`, so the run fails and no
output-file step is performed. -/
theorem claim_c2_short_final_batch (g : DatasetGenerator)
    (store : String → List Point) (env : CometEnv) (collection_name : String)
    (batch_size : Nat) (all_contents : List String)
    (hf : DatasetGenerator.fetch_all_cleaned_content store collection_name
        = .ok all_contents)
    (hb : 1 < batch_size)
    (hnd : ¬ batch_size ∣ all_contents.length)
    (hapi : ∀ m, m * batch_size < all_contents.length →
        ∃ l, g.api_communicator m = .ok l
          ∧ l.length = min batch_size (all_contents.length - m * batch_size)) :
    (DatasetGenerator.generate_training_data g true store env collection_name
        batch_size).result = .error .indexError
    ∧ (DatasetGenerator.generate_training_data g true store env collection_name
        batch_size).steps = []
    ∧ (DatasetGenerator.generate_training_data g true store env collection_name
        batch_size).calls.length
          = (all_contents.length + batch_size - 1) / batch_size := by
  have hb0 : 0 < batch_size := by omega
  have hmod : batch_size * (all_contents.length / batch_size)
      + all_contents.length % batch_size = all_contents.length :=
    Nat.div_add_mod _ _
  have hcomm : batch_size * (all_contents.length / batch_size)
      = all_contents.length / batch_size * batch_size := Nat.mul_comm _ _
  have hs0 : all_contents.length % batch_size ≠ 0 :=
    fun h => hnd (Nat.dvd_of_mod_eq_zero h)
  have hslt : all_contents.length % batch_size < batch_size := Nat.mod_lt _ hb0
  have hqb : all_contents.length / batch_size * batch_size ≤ all_contents.length := by
    omega
  have hqblt : all_contents.length / batch_size * batch_size
      < all_contents.length := by omega
  obtain ⟨fuel2, r2, c2, heq, hr2, hc2, hf2⟩ :=
    DatasetGenerator.genLoop_reach all_contents batch_size g.api_communicator hb0
      (all_contents.length / batch_size) (all_contents.length + 1) 0 [] []
      (by
        intro u hu
        have hub : (u + 1) * batch_size
            ≤ all_contents.length / batch_size * batch_size :=
          Nat.mul_le_mul_right _ (by omega)
        have hu1 : (u + 1) * batch_size = u * batch_size + batch_size := by ring
        obtain ⟨l, hl, hlen⟩ := hapi u (by omega)
        refine ⟨l, by simpa using hl, ?_⟩
        rw [hlen]
        exact Nat.min_eq_left (by omega))
      (by omega) rfl (by omega)
  simp only [Nat.zero_add] at heq hr2 hf2
  simp only [List.length_nil, Nat.zero_add] at hc2
  obtain ⟨f2, rfl⟩ : ∃ f, fuel2 = f + 1 := ⟨fuel2 - 1, by omega⟩
  have hstep := DatasetGenerator.genLoop_step all_contents batch_size
    g.api_communicator f2 (all_contents.length / batch_size * batch_size) r2 c2 hqblt
  obtain ⟨l, hl, hlen⟩ := hapi (all_contents.length / batch_size) hqblt
  have hlen' : l.length = all_contents.length % batch_size := by
    rw [hlen]
    rw [show all_contents.length
          - all_contents.length / batch_size * batch_size
        = all_contents.length % batch_size from by omega]
    exact Nat.min_eq_right (by omega)
  rw [hc2, hl] at hstep
  dsimp only at hstep
  have hrl : (r2 ++ l).length = all_contents.length := by
    rw [List.length_append, hr2, hlen']
    omega
  have hov := DatasetGenerator.overwriteLoop_err all_contents batch_size
    (all_contents.length / batch_size * batch_size) (r2 ++ l) hrl (by omega) (by omega)
  rw [hov] at hstep
  dsimp only at hstep
  have hloop := heq.trans hstep
  have hgen : DatasetGenerator.generate_training_data g true store env
      collection_name batch_size
        = ⟨.error .indexError,
           c2 ++ [DataFormatter.format_prompt
             ((all_contents.drop (all_contents.length / batch_size * batch_size)).take
               batch_size)
             (all_contents.length / batch_size * batch_size)],
           []⟩ := by
    unfold DatasetGenerator.generate_training_data
    rw [hf]
    dsimp only
    rw [if_neg (by omega), hloop]
  rw [hgen]
  refine ⟨rfl, rfl, ?_⟩
  have h1 : (all_contents.length % batch_size + batch_size - 1) / batch_size = 1 :=
    Nat.div_eq_of_lt_le (by omega) (by omega)
  have hceil : (all_contents.length + batch_size - 1) / batch_size
      = all_contents.length / batch_size + 1 := by
    rw [show all_contents.length + batch_size - 1
          = (all_contents.length % batch_size + batch_size - 1)
            + all_contents.length / batch_size * batch_size from by omega]
    rw [Nat.add_mul_div_right _ _ hb0, h1]
    omega
  rw [hceil]
  simp [hc2]

/-- C2 witness: three records with batch size two — both calls happen, then
the final short batch's overwrite raises `IndexError`. -/
theorem claim_c2_witness :
    (DatasetGenerator.generate_training_data c2Gen true c2Store
        ⟨true, true, true, true⟩ ("cleaned_posts") 2).result = .error .indexError
    ∧ (DatasetGenerator.generate_training_data c2Gen true c2Store
        ⟨true, true, true, true⟩ ("cleaned_posts") 2).steps = []
    ∧ (DatasetGenerator.generate_training_data c2Gen true c2Store
        ⟨true, true, true, true⟩ ("cleaned_posts") 2).calls.length
          = ((["A", "B", "C"] : List String).length + 2 - 1) / 2 :=
  claim_c2_short_final_batch c2Gen c2Store ⟨true, true, true, true⟩
    ("cleaned_posts") 2 ["A", "B", "C"] (by decide) (by decide) (by decide)
    (by
      intro m hm
      have hL : (["A", "B", "C"] : List String).length = 3 := rfl
      have hm01 : m = 0 ∨ m = 1 := by omega
      rcases hm01 with h | h <;> subst h
      · exact ⟨[⟨"i1", "0"⟩, ⟨"i2", "1"⟩], rfl, by decide⟩
      · exact ⟨[⟨"i3", "2"⟩], rfl, by decide⟩)
